import Mathlib

/-!
Verification of the vertebrae backup daemon's coordinator (`src/main.rs`).

The coordinator wires together a filesystem watcher, a sequential Worker
actor, a periodic journal-flush task, a periodic rescan timer, and a
graceful-shutdown sequence.  We embed its control flow shallowly: every
fallible external operation (journal IO, worker send, rescan, task joins)
is given its outcome as an oracle input, the scheduler's choices in the
`tokio::select!` loops are given as an explicit event list, and the
observable behaviour (log calls, worker sends, rescan invocations,
shutdown steps) is collected as a trace of actions.

The journal module itself is not part of the sources under verification
(only its use from `main.rs` is); its contract is modelled from the spec
where a claim depends on it, and such definitions are marked
`Modelled from the spec`.
-/

namespace Vertebrae

/-- Modelled from the spec: the Journal aggregate (journal module is not
under src/).  A mapping from source-path identity to entries, plus a dirty
flag set on mutation and cleared only by a successful flush. -/
structure Journal where
  entries : List (String × String)
  dirty : Bool
deriving DecidableEq, Repr

/-- Modelled from the spec: the state of the snapshot file
`.vertebrae.journal.json` found at startup — absent, present but
unreadable/corrupt, or present and valid. -/
inductive SnapshotFile
  | absent
  | corrupt
  | valid (entries : List (String × String))
deriving DecidableEq, Repr

/-- Modelled from the spec: `Journal::new` reads an existing snapshot file
if present and parses it as the entry mapping; if absent, starts with an
empty mapping; fails with an IO/parse error if the file exists but is
corrupt. -/
def Journal.new : SnapshotFile → Except String Journal
  | .absent => .ok ⟨[], false⟩
  | .corrupt => .error "corrupt journal snapshot"
  | .valid es => .ok ⟨es, false⟩

/-- Modelled from the spec: `Journal::is_dirty` — true iff a mutation
happened since the last successful flush. -/
def Journal.is_dirty (j : Journal) : Bool := j.dirty

/-- Modelled from the spec: `Journal::flush` serializes the full entry
mapping to the snapshot file and clears the dirty flag, returning the
count of entries written; an IO failure (the `disk` oracle) is returned
to the caller and leaves the in-memory journal unchanged. -/
def Journal.flush (j : Journal) (disk : Except String Unit) :
    Except String (Nat × Journal) :=
  match disk with
  | .ok _ => .ok (j.entries.length, ⟨j.entries, false⟩)
  | .error e => .error e

/-- The slice of the parsed `Config` the coordinator consults
(`config.fs_refresh_timeout_secs` feeds the rescan timer in
`main.rs:146-147`). -/
structure Config where
  fs_refresh_timeout_secs : Nat
deriving DecidableEq, Repr

/-- Period of the rescan timer built at `main.rs:146-147`:
`tokio::time::interval(Duration::from_secs(config.fs_refresh_timeout_secs))`. -/
def rescanIntervalSecs (c : Config) : Nat := c.fs_refresh_timeout_secs

/-- Period of the journal flush timer built at `main.rs:121`:
`tokio::time::interval(Duration::from_secs(30))`. -/
def flushIntervalSecs : Nat := 30

/-- Observable actions of the coordinator (log calls and the externally
visible operations it performs), in program order. -/
inductive Ev
  | logError
  | logWarn
  | logInfo
  | rescanInvoked
  | workerSend
  | spawnFlushTask
  | cancelTimers
  | joinFlushTask
  | joinWorker
  | finalFlushInvoked
  | reportFlushed (n : Nat)
deriving DecidableEq, Repr

/-- How the whole process run ends: a clean `Ok(())` return from `main`,
a panic (`expect` firing), or still inside the event loop (the supplied
schedule was exhausted without a loop exit). -/
inductive ExitStatus
  | exitedOk
  | panicked
  | running
deriving DecidableEq, Repr

/-! ## The watcher callback (`main.rs:92-100`) -/

/-- Actions the `notify::recommended_watcher` callback can take. -/
inductive CbAct
  | logTraceEvent
  | sendToChannel
  | logWatchError
deriving DecidableEq, Repr

/-- The watcher callback of `main.rs:92-99`: on `Ok(event)` it traces the
event and sends `WorkerMessage::FilesystemEvent` to the channel, with
`.expect` panicking when the send fails (`sendOk = false`); on `Err(err)`
it logs the watch error and does nothing else.  Returns the actions taken
and whether the callback panicked. -/
def watcherCallback (res : Except String Unit) (sendOk : Bool) :
    List CbAct × Bool :=
  match res with
  | .ok _ => ([.logTraceEvent, .sendToChannel], !sendOk)
  | .error _ => ([.logWatchError], false)

/-! ## The periodic flush task (`main.rs:117-144`) -/

/-- One scheduler step of the spawned flush-timer task's
`tokio::select!`: a 30-second tick (carrying the disk outcome a flush
would have), an interleaved journal mutation by the worker (which sets
the dirty flag), or cancellation winning the select. -/
inductive FlushEvent
  | tick (disk : Except String Unit)
  | markDirty
  | cancelled
deriving Repr

/-- Observable actions of the flush-timer task. -/
inductive FlushAct
  | flushInvoked
  | flushErrorLogged
deriving DecidableEq, Repr

/-- Body of one tick of the flush task (`main.rs:124-136`): read
`is_dirty` under the read lock; only if dirty, take the write lock and
call `flush`, logging (not propagating) a flush error. -/
def flushTick (j : Journal) (disk : Except String Unit) :
    List FlushAct × Journal :=
  if j.is_dirty then
    match j.flush disk with
    | .ok (_, j2) => ([.flushInvoked], j2)
    | .error _ => ([.flushInvoked, .flushErrorLogged], j)
  else ([], j)

/-- The flush task's loop (`main.rs:122-141`): process ticks until
cancellation wins the select, threading the shared journal through
interleaved worker mutations. -/
def flushTaskRun (j : Journal) : List FlushEvent → List FlushAct × Journal
  | [] => ([], j)
  | .tick disk :: rest =>
      let s := flushTick j disk
      let r := flushTaskRun s.2 rest
      (s.1 ++ r.1, r.2)
  | .markDirty :: rest => flushTaskRun ⟨j.entries, true⟩ rest
  | .cancelled :: _ => ([], j)

/-! ## The main event loop (`main.rs:149-170`) -/

/-- One resolution of the main loop's `tokio::select!`: a message arrives
on the watcher channel (with the outcome `worker.send_message` will
report), the channel is found closed (`rx.recv()` yields `None`), the
rescan timer ticks (with the outcome of `Worker::rescan`), or `ctrl_c`
fires. -/
inductive LoopEvent
  | recvMsg (sendResult : Except String Unit)
  | recvClosed
  | rescanTick (rescanResult : Except String Unit)
  | ctrlC
deriving Repr

/-- Why the main loop broke. -/
inductive ExitReason
  | workerSendError
  | channelClosed
  | interrupt
deriving DecidableEq, Repr

/-- Outcome of running the main loop on a finite schedule. -/
inductive LoopOutcome
  | exited (r : ExitReason)
  | stillRunning
deriving DecidableEq, Repr

/-- The main event loop (`main.rs:149-170`): on a received message, call
`worker.send_message`; if that errors, log and break.  On a closed
channel, break.  On a rescan tick, call `Worker::rescan` inline, logging
(not propagating) its error.  On `ctrl_c`, break. -/
def runLoop : List LoopEvent → List Ev × LoopOutcome
  | [] => ([], .stillRunning)
  | .recvMsg r :: rest =>
      match r with
      | .ok _ =>
          let t := runLoop rest
          (.workerSend :: t.1, t.2)
      | .error _ => ([.workerSend, .logError], .exited .workerSendError)
  | .recvClosed :: _ => ([], .exited .channelClosed)
  | .rescanTick r :: rest =>
      let step : List Ev :=
        match r with
        | .ok _ => [.rescanInvoked]
        | .error _ => [.rescanInvoked, .logError]
      let t := runLoop rest
      (step ++ t.1, t.2)
  | .ctrlC :: _ => ([], .exited .interrupt)

/-! ## Shutdown (`main.rs:172-194`) -/

/-- Join-time and final-flush oracles consumed during shutdown. -/
structure ShutdownOracles where
  joinFlushRes : Except String Unit
  joinWorkerRes : Except String Unit
  finalFlushDisk : Except String Unit

/-- The graceful-shutdown sequence (`main.rs:172-194`): log, cancel the
token, await the flush-task handle (warn on join error), await
`worker.wait_for_shutdown` (warn on error), then flush the journal one
final time with `.expect` — a flush failure panics, a success reports the
entry count and `main` returns `Ok(())`. -/
def runShutdown (j : Journal) (o : ShutdownOracles) : List Ev × ExitStatus :=
  let t1 : List Ev :=
    [.cancelTimers, .joinFlushTask] ++
      (match o.joinFlushRes with | .ok _ => [] | .error _ => [.logWarn]) ++
    [.joinWorker] ++
      (match o.joinWorkerRes with | .ok _ => [] | .error _ => [.logWarn]) ++
    [.logInfo, .finalFlushInvoked]
  match j.flush o.finalFlushDisk with
  | .ok (n, _) => (t1 ++ [.reportFlushed n, .logInfo], .exitedOk)
  | .error _ => (t1, .panicked)

/-- The loop followed by shutdown whenever the loop breaks
(`main.rs:149-194`).  `j` is the shared journal's state when the final
flush takes it (its content during the run is mutated by the worker,
outside this coordinator). -/
def runFromLoop (j : Journal) (events : List LoopEvent)
    (o : ShutdownOracles) : List Ev × ExitStatus :=
  match runLoop events with
  | (t, .stillRunning) => (t, .running)
  | (t, .exited _) =>
      let s := runShutdown j o
      (t ++ .logInfo :: s.1, s.2)

/-! ## Startup (`main.rs:64-147`) -/

/-- Environment inputs consumed during startup. -/
structure StartupInputs where
  baseIsDir : Bool
  snapshot : SnapshotFile
  watcherSetupOk : Bool
  watchPathsOk : Bool
  startupRescan : Except String Unit

/-- Outcome of startup. -/
inductive StartupOutcome
  | refusedClean
  | panickedStartup
  | started (j : Journal)
deriving DecidableEq, Repr

/-- Startup (`main.rs:64-147`): if the backup path is not a directory,
log an error and return `Ok(())` doing nothing further; construct the
journal (`.expect` panics on failure); set up the watcher and watch each
path (`.expect` panics on failure); run the startup rescan inline,
logging (not propagating) its error; spawn the flush-timer task. -/
def runStartup (s : StartupInputs) : List Ev × StartupOutcome :=
  if s.baseIsDir = false then ([.logError], .refusedClean)
  else
    match Journal.new s.snapshot with
    | .error _ => ([], .panickedStartup)
    | .ok j =>
      if s.watcherSetupOk = false then ([], .panickedStartup)
      else if s.watchPathsOk = false then ([], .panickedStartup)
      else
        let rescanT : List Ev :=
          match s.startupRescan with
          | .ok _ => [.rescanInvoked]
          | .error _ => [.rescanInvoked, .logError]
        (rescanT ++ [.spawnFlushTask], .started j)

/-- All environment inputs of one run of `main` (after config parsing). -/
structure MainInputs where
  startup : StartupInputs
  loopEvents : List LoopEvent
  shutdown : ShutdownOracles

/-- A whole run of `main` from the directory check onward
(`main.rs:64-194`): startup, then the event loop, then — when the loop
breaks — the graceful-shutdown sequence. -/
def runMain (ins : MainInputs) : List Ev × ExitStatus :=
  match runStartup ins.startup with
  | (t, .refusedClean) => (t, .exitedOk)
  | (t, .panickedStartup) => (t, .panicked)
  | (t, .started j) =>
      let r := runFromLoop j ins.loopEvents ins.shutdown
      (t ++ r.1, r.2)

/-- The four ordered shutdown steps named by the spec. -/
def isShutdownStep : Ev → Bool
  | .cancelTimers => true
  | .joinFlushTask => true
  | .joinWorker => true
  | .finalFlushInvoked => true
  | _ => false

/-!  ## Claims  -/

/-- C1: On shutdown — entered from an interrupt or any other break out of
the main loop — the coordinator performs, in this order: cancel the
flush-timer task, join it, join the Worker, then one final Journal flush
unconditionally (the statement quantifies over every journal `j`,
including `j.dirty = false`), and reports the count of entries flushed on
success. -/
theorem shutdown_sequence_order (j : Journal) (o : ShutdownOracles)
    (rest : List LoopEvent) :
    (runShutdown j o).1.filter isShutdownStep =
      [.cancelTimers, .joinFlushTask, .joinWorker, .finalFlushInvoked] ∧
    Ev.finalFlushInvoked ∈ (runShutdown j o).1 ∧
    (o.finalFlushDisk = .ok () →
      Ev.reportFlushed j.entries.length ∈ (runShutdown j o).1) ∧
    runFromLoop j (.ctrlC :: rest) o =
      (Ev.logInfo :: (runShutdown j o).1, (runShutdown j o).2) := by
  rcases o with ⟨jf, jw, fd⟩
  cases jf <;> cases jw <;> cases fd <;>
    simp [runShutdown, runFromLoop, runLoop, Journal.flush, isShutdownStep]

/-- Closed witness for the hypotheses of `shutdown_sequence_order`. -/
theorem shutdown_sequence_order_witness :
    Ev.reportFlushed 1 ∈
      (runShutdown ⟨[("a", "b")], false⟩ ⟨.ok (), .ok (), .ok ()⟩).1 :=
  (shutdown_sequence_order ⟨[("a", "b")], false⟩
    ⟨.ok (), .ok (), .ok ()⟩ []).2.2.1 rfl

/-- C2: A flush failure at a periodic tick is logged and skipped — the
journal (including its dirty flag) is left unchanged, the task loop
continues, and the very next dirty tick retries the flush — while a
failure of the single final shutdown flush panics instead of exiting
normally, and a successful final flush exits normally. -/
theorem flush_failure_recoverable_then_fatal (es : List (String × String))
    (m : String) (rest : List FlushEvent) (j : Journal)
    (r1 r2 : Except String Unit) :
    flushTick ⟨es, true⟩ (.error m) =
      ([.flushInvoked, .flushErrorLogged], ⟨es, true⟩) ∧
    flushTaskRun ⟨es, true⟩ (.tick (.error m) :: rest) =
      (FlushAct.flushInvoked :: FlushAct.flushErrorLogged ::
        (flushTaskRun ⟨es, true⟩ rest).1, (flushTaskRun ⟨es, true⟩ rest).2) ∧
    flushTaskRun ⟨es, true⟩ [.tick (.error m), .tick (.ok ())] =
      ([.flushInvoked, .flushErrorLogged, .flushInvoked], ⟨es, false⟩) ∧
    (runShutdown j ⟨r1, r2, .error m⟩).2 = .panicked ∧
    (runShutdown j ⟨r1, r2, .ok ()⟩).2 = .exitedOk := by
  refine ⟨rfl, ?_, ?_, ?_, ?_⟩
  · simp [flushTaskRun, flushTick, Journal.flush, Journal.is_dirty]
  · simp [flushTaskRun, flushTick, Journal.flush, Journal.is_dirty]
  · cases r1 <;> cases r2 <;> simp [runShutdown, Journal.flush]
  · cases r1 <;> cases r2 <;> simp [runShutdown, Journal.flush]

/-- C3: The periodic flush task runs on a 30-second interval; at each
tick it invokes `Journal.flush` iff `Journal.is_dirty()` holds at that
tick, and a tick at which the journal is not dirty performs no action at
all (no write, journal untouched). -/
theorem periodic_flush_iff_dirty (j : Journal) (disk : Except String Unit)
    (es : List (String × String)) (rest : List FlushEvent) :
    flushIntervalSecs = 30 ∧
    (FlushAct.flushInvoked ∈ (flushTick j disk).1 ↔ j.is_dirty = true) ∧
    flushTick ⟨es, false⟩ disk = ([], ⟨es, false⟩) ∧
    flushTaskRun ⟨es, false⟩ (.tick disk :: rest) =
      flushTaskRun ⟨es, false⟩ rest := by
  refine ⟨rfl, ?_, ?_, ?_⟩
  · rcases j with ⟨jes, d⟩
    cases d <;> cases disk <;>
      simp [flushTick, Journal.is_dirty, Journal.flush]
  · simp [flushTick, Journal.is_dirty]
  · simp [flushTaskRun, flushTick, Journal.is_dirty]

/-- Closed witness for `periodic_flush_iff_dirty`: at a dirty tick the
flush is invoked. -/
theorem periodic_flush_iff_dirty_witness :
    FlushAct.flushInvoked ∈ (flushTick ⟨[], true⟩ (.ok ())).1 :=
  (periodic_flush_iff_dirty ⟨[], true⟩ (.ok ()) [] []).2.1.mpr rfl

/-- C4: If `worker.send_message` errors for a received message, the main
loop logs and breaks immediately — the remaining schedule is never
processed — whereas a successful send continues the loop with the next
event. -/
theorem worker_send_error_stops_loop (e : String) (rest : List LoopEvent) :
    runLoop (.recvMsg (.error e) :: rest) =
      ([.workerSend, .logError], .exited .workerSendError) ∧
    runLoop (.recvMsg (.ok ()) :: rest) =
      (Ev.workerSend :: (runLoop rest).1, (runLoop rest).2) := by
  exact ⟨rfl, rfl⟩

/-- C5: When the configured backup destination is not an existing
directory, the run logs an error and returns cleanly with the success
exit value, performing no further work — no journal open, no watcher, no
rescan, no panic. -/
theorem bad_backup_path_refuses_start (ins : MainInputs)
    (h : ins.startup.baseIsDir = false) :
    runMain ins = ([.logError], .exitedOk) := by
  simp [runMain, runStartup, h]

/-- Closed witness for `bad_backup_path_refuses_start`. -/
theorem bad_backup_path_refuses_start_witness :
    runMain ⟨⟨false, .absent, true, true, .ok ()⟩, [],
      ⟨.ok (), .ok (), .ok ()⟩⟩ = ([.logError], .exitedOk) :=
  bad_backup_path_refuses_start _ rfl

/-- C6: When the snapshot file exists but cannot be read or parsed,
`Journal::new` fails and `main`'s `.expect` aborts the process — the run
panics before any further work, rather than continuing with an empty
journal. -/
theorem corrupt_journal_aborts_startup (ins : MainInputs)
    (h1 : ins.startup.baseIsDir = true)
    (h2 : ins.startup.snapshot = .corrupt) :
    runMain ins = ([], .panicked) := by
  simp [runMain, runStartup, h1, h2, Journal.new]

/-- Closed witness for `corrupt_journal_aborts_startup`. -/
theorem corrupt_journal_aborts_startup_witness :
    runMain ⟨⟨true, .corrupt, true, true, .ok ()⟩, [],
      ⟨.ok (), .ok (), .ok ()⟩⟩ = ([], .panicked) :=
  corrupt_journal_aborts_startup _ rfl rfl

/-- C7: Whenever startup succeeds, the rescan is invoked exactly once in
the startup phase, and the startup trace appears in full before any event
of the main loop; the periodic rescan timer's period is the configured
rescan interval in seconds; and a rescan-timer tick in the loop invokes
the rescan inline, generating no `worker.send_message` call. -/
theorem rescan_startup_and_timer (ins : MainInputs) (t : List Ev)
    (j : Journal) (c : Config) (r : Except String Unit)
    (rest : List LoopEvent)
    (h : runStartup ins.startup = (t, .started j)) :
    t.count .rescanInvoked = 1 ∧
    runMain ins = (t ++ (runFromLoop j ins.loopEvents ins.shutdown).1,
      (runFromLoop j ins.loopEvents ins.shutdown).2) ∧
    rescanIntervalSecs c = c.fs_refresh_timeout_secs ∧
    Ev.rescanInvoked ∈ (runLoop (.rescanTick r :: rest)).1 ∧
    (runLoop (.rescanTick r :: rest)).1.count .workerSend =
      (runLoop rest).1.count .workerSend := by
  refine ⟨?_, ?_, rfl, ?_, ?_⟩
  · rcases ins with ⟨⟨bd, snap, w1, w2, sr⟩, les, o⟩
    cases bd <;> cases snap <;> cases w1 <;> cases w2 <;> cases sr <;>
      simp [runStartup, Journal.new] at h <;>
      simp [← h.1, List.count_cons, List.count_append]
  · simp [runMain, h]
  · cases r <;> simp [runLoop]
  · cases r <;> simp [runLoop, List.count_cons, List.count_append]

/-- Closed witness for `rescan_startup_and_timer`. -/
theorem rescan_startup_and_timer_witness :
    ([Ev.rescanInvoked, Ev.spawnFlushTask].count Ev.rescanInvoked) = 1 :=
  (rescan_startup_and_timer
    ⟨⟨true, .absent, true, true, .ok ()⟩, [], ⟨.ok (), .ok (), .ok ()⟩⟩
    [Ev.rescanInvoked, Ev.spawnFlushTask] ⟨[], false⟩ ⟨10⟩ (.ok ()) []
    rfl).1

/-- C8: The error branch of the watcher callback logs the watch error and
does nothing else: it does not panic, does not send to the worker
channel, and touches no state, for every send-oracle value. -/
theorem watch_error_only_logged (e : String) (sendOk : Bool) :
    watcherCallback (.error e) sendOk = ([.logWatchError], false) := rfl

/-- C9: A rescan failure is logged and non-fatal: at startup the run
still reaches the `started` state (and proceeds to the event loop), and
in the loop a failing rescan tick logs and continues with the remaining
schedule, whose outcome is unchanged. -/
theorem rescan_failure_nonfatal (snap : SnapshotFile) (j : Journal)
    (m : String) (rest : List LoopEvent)
    (h : Journal.new snap = .ok j) :
    runStartup ⟨true, snap, true, true, .error m⟩ =
      ([.rescanInvoked, .logError, .spawnFlushTask], .started j) ∧
    runLoop (.rescanTick (.error m) :: rest) =
      (Ev.rescanInvoked :: Ev.logError :: (runLoop rest).1,
       (runLoop rest).2) := by
  constructor
  · simp [runStartup, h]
  · rfl

/-- Closed witness for `rescan_failure_nonfatal`. -/
theorem rescan_failure_nonfatal_witness :
    runStartup ⟨true, .absent, true, true, .error "walk failed"⟩ =
      ([.rescanInvoked, .logError, .spawnFlushTask],
        .started ⟨[], false⟩) :=
  (rescan_failure_nonfatal .absent ⟨[], false⟩ "walk failed" [] rfl).1

/-- C10: When `rx.recv()` yields `None` (all senders dropped), the main
loop exits at once, and the run from that point is identical to the run
after an operator interrupt: the same graceful-shutdown sequence runs,
including all four ordered shutdown steps. -/
theorem channel_closed_full_shutdown (rest : List LoopEvent)
    (j : Journal) (o : ShutdownOracles) :
    runLoop (.recvClosed :: rest) = ([], .exited .channelClosed) ∧
    runFromLoop j (.recvClosed :: rest) o = runFromLoop j [.ctrlC] o ∧
    (runFromLoop j (.recvClosed :: rest) o).1.filter isShutdownStep =
      [.cancelTimers, .joinFlushTask, .joinWorker, .finalFlushInvoked] := by
  refine ⟨rfl, rfl, ?_⟩
  rcases o with ⟨jf, jw, fd⟩
  cases jf <;> cases jw <;> cases fd <;>
    simp [runFromLoop, runLoop, runShutdown, Journal.flush, isShutdownStep]

end Vertebrae
